import Mathlib

/-
Verification of the anonymouus substitution engine.

Shallow embedding of the core of src/anonymouus (anonymouus.py,
dynamic_substitution.py, date_replacer.py) over List Char. Compiled regular
expressions are embedded by their matching semantics: a Matcher receives the
character preceding the current position (for word boundaries) and the
remaining input, and reports the length of a match starting at the current
position, if any. The scanning functions take an explicit fuel argument so
that they are structurally recursive and compute inside the kernel; the fuel
is always instantiated with more than the length of the input, and every
recursive call consumes at least one input character per unit of fuel, so
the fuel-exhausted base case is never reached at those instantiations.
-/

namespace Anon

abbrev Str := List Char

/-- A compiled pattern, embedded by its matching semantics: given the
character before the current position and the remaining input, return the
length of the match starting here, if any. -/
abbrev Matcher := Option Char → Str → Option Nat

/-- Python regex word characters (ASCII fragment): alphanumerics and the
underscore. -/
def isWordChar (c : Char) : Bool := c.isAlphanum || c = '_'

def isWordOpt : Option Char → Bool
  | none => false
  | some c => isWordChar c

/-- A regex word boundary sits between two positions whose word-character
statuses differ; the virtual characters beyond both ends of the input count
as non-word. -/
def boundary (a b : Option Char) : Bool := isWordOpt a != isWordOpt b

/-- The pattern obtained by compiling an escaped literal key: it matches
exactly that key. The empty key is treated as matching nowhere; every key
arising in the claims is nonempty. -/
def litMatcher (key : Str) : Matcher := fun _ s =>
  if !key.isEmpty && key.isPrefixOf s then some key.length else none

/-- The pattern obtained by compiling a literal key wrapped in word
boundaries, as built by Anonymize.init for dictionary mode with
use_word_boundaries (anonymouus.py lines 206-214). -/
def wbLitMatcher (key : Str) : Matcher := fun prev s =>
  if !key.isEmpty && key.isPrefixOf s && boundary prev key.head? &&
      boundary key.getLast? ((s.drop key.length).head?)
  then some key.length else none

/-- Core of re.subn with a replacement function: scan left to right, at each
position try the pattern; on a match, emit the image of the matched text and
continue after it (matches are non-overlapping); otherwise copy one
character. Returns the rewritten text and the list of matched texts, in
order. Zero-length matches are treated as no match; no pattern used below
can match the empty string. -/
def subnCoreF (p : Matcher) (f : Str → Str) : Nat → Option Char → Str → Str × List Str
  | 0, _, s => (s, [])
  | fuel+1, prev, s =>
    match s with
    | [] => ([], [])
    | c :: rest =>
      match p prev (c :: rest) with
      | some (n+1) =>
        let m := (c :: rest).take (n+1)
        let r := subnCoreF p f fuel (m.getLast?) (rest.drop n)
        (f m ++ r.1, m :: r.2)
      | _ =>
        let r := subnCoreF p f fuel (some c) rest
        (c :: r.1, r.2)

def subnCore (p : Matcher) (f : Str → Str) (s : Str) : Str × List Str :=
  subnCoreF p f (s.length + 1) none s

/-- pattern.subn(f, s): the rewritten string together with the number of
substitutions made; re counts one substitution for every match of the
pattern, whether or not the replacement differs from the matched text. -/
def subnFun (p : Matcher) (f : Str → Str) (s : Str) : Str × Nat :=
  ((subnCore p f s).1, (subnCore p f s).2.length)

/-- The list of texts matched by a pattern in a string (re.findall). -/
def patternMatches (p : Matcher) (s : Str) : List Str :=
  (subnCore p id s).2

/-- re.subn(key, value, string) for an escaped literal key. -/
def subnLit (key val s : Str) : Str × Nat :=
  subnFun (litMatcher key) (fun _ => val) s

/-- re.subn on a literal key wrapped in word boundaries. -/
def subnWBLit (key val s : Str) : Str × Nat :=
  subnFun (wbLitMatcher key) (fun _ => val) s

/-- One entry of the substitution mapping: a key (with a flag recording
whether it was a compiled regex rather than a literal string) and its
pseudonym. -/
structure Entry where
  isRegex : Bool
  key : Str
  val : Str
deriving DecidableEq

/-- The sort key of Anonymize.reorder (anonymouus.py lines 361-369): the
length of a string key, with regex keys ranked as length 100000. -/
def sortKey (e : Entry) : Nat := if e.isRegex then 100000 else e.key.length

/-- Stable insertion for a descending sort by sortKey: an element moves in
front of the first strictly smaller element, and keeps its original position
relative to elements of equal rank, exactly the behaviour of the stable
python sorted with reverse set. -/
def insertDesc (e : Entry) : List Entry → List Entry
  | [] => [e]
  | f :: fs => if sortKey f ≤ sortKey e then e :: f :: fs else f :: insertDesc e fs

/-- Embedding of Anonymize reorder of the mapping: stable sort of the
entries, descending by sortKey. -/
def reorderDict (l : List Entry) : List Entry := l.foldr insertDesc []

def ruleList (es : List Entry) : List (Str × Str) :=
  es.map (fun e => (e.key, e.val))

/-- Dictionary mode of Anonymize.substituteIds (anonymouus.py lines
694-705), for rule sets whose keys are all literal, without word boundaries:
loop over the entries in order, globally substituting each key in the text
already rewritten by the earlier entries, accumulating the substitution
count (updateSubsCount). -/
def substituteIdsDict (rules : List (Str × Str)) (s : Str) : Str × Nat :=
  rules.foldl (fun acc kv =>
    let r := subnLit kv.1 kv.2 acc.1
    (r.1, acc.2 + r.2)) (s, 0)

/-- Dictionary mode with use_word_boundaries: the same loop after each
literal key has been wrapped in word boundaries at construction time. -/
def substituteIdsDictWB (rules : List (Str × Str)) (s : Str) : Str × Nat :=
  rules.foldl (fun acc kv =>
    let r := subnWBLit kv.1 kv.2 acc.1
    (r.1, acc.2 + r.2)) (s, 0)

/-- dict.get for an association list with unique keys. -/
def lookupMap (m : List (Str × Str)) (k : Str) : Option Str :=
  match m with
  | [] => none
  | (a, b) :: rest => if a = k then some b else lookupMap rest k

/-- Pattern mode with a static mapping of Anonymize.substituteIds
(anonymouus.py lines 714-729): pattern.subn of a lambda that looks the
matched text up in the mapping and falls back to the matched text itself. -/
def substituteIdsPattern (p : Matcher) (mapping : List (Str × Str)) (s : Str) : Str × Nat :=
  subnFun p (fun m => (lookupMap mapping m).getD m) s

/-- The python exceptions raised by the embedded code. -/
inductive PyErr
  | typeError
  | valueError
  | attributeError
deriving DecidableEq

/-- The python value passed as the mapping argument of Anonymize.init (the
type dispatch of the constructor only inspects its type, so a path carries
its text and a function carries its signature, see PyFuncSig below). -/
inductive PyVal
  | none
  | dict (pairs : List (Str × Str))
  | str (s : Str)
  | func (nParams : Nat) (tailHasDefault : List Bool)
deriving DecidableEq

def PyVal.isDict : PyVal → Bool
  | .dict _ => true
  | _ => false

def PyVal.isPathLike : PyVal → Bool
  | .str _ => true
  | _ => false

def PyVal.isCallable : PyVal → Bool
  | .func _ _ => true
  | _ => false

/-- The mapping-related attributes Anonymize.init assigns. -/
structure MappingConfig where
  mapping : PyVal
  mappingIsFunction : Bool
  mappingFile : PyVal
deriving DecidableEq

/-- Embedding of the mapping-source dispatch of Anonymize.init
(anonymouus.py lines 146-182). The code first sets self.mapping to None and
then performs every isinstance test on self.mapping rather than on the
mapping parameter, so the first two branches are unreachable: their guards
are the literal results of isinstance applied to None. Only
callable(mapping) inspects the parameter. The payloads of the two dead ok
branches transcribe the assignments the source would make there. -/
def initMappingDispatch (mapping : PyVal) (hasPattern : Bool) :
    Except PyErr MappingConfig :=
  let selfMapping : PyVal := PyVal.none
  if selfMapping.isDict then
    .ok ⟨mapping, false, .none⟩
  else if selfMapping.isPathLike then
    .ok ⟨mapping, false, mapping⟩
  else if mapping.isCallable then
    if hasPattern then .ok ⟨mapping, true, .none⟩
    else .error .valueError
  else .error .typeError

/-- The introspectable signature of a python callable: the number of
parameters, and, for each parameter after the first, whether it has a
default value. -/
structure PyFuncSig where
  nParams : Nat
  tailHasDefault : List Bool
deriving DecidableEq

/-- Embedding of Anonymize.checkCallable (anonymouus.py lines 763-782) on a
callable argument: pure signature introspection; the function is never
invoked. Raises ValueError when there is no parameter at all, or when some
parameter after the first lacks a default value. -/
def checkCallable (sig : PyFuncSig) : Except PyErr Bool :=
  if sig.nParams = 0 then .error .valueError
  else if sig.nParams > 1 && sig.tailHasDefault.any (fun hasDef => !hasDef) then
    .error .valueError
  else .ok true

/-- The attributes of an Anonymize instance consulted by substituteIds and
substituteString. preprocessText is none exactly when the preprocess_text
argument was not supplied: init assigns the attribute only inside
if preprocess_text (lines 143-144), and reading a never-assigned attribute
raises AttributeError in python. dateReplacer mirrors the same pattern for
the date_replacer argument (lines 226-227). -/
structure AnonConfig where
  preprocessText : Option (Str → Str)
  dateReplacer : Option (Str → Str)
  pattern : Option Matcher
  mappingIsFunction : Bool
  mappingEntries : List (Str × Str)
  mappingFunc : Str → Str

/-- Embedding of Anonymize.substituteIds (anonymouus.py lines 686-725). The
first statement evaluates callable(self.preprocess_text): when the attribute
was never assigned, the attribute read itself raises AttributeError, before
any matching occurs. Dictionary mode is stated for rule sets with literal
keys. -/
def substituteIdsPy (cfg : AnonConfig) (s : Str) : Except PyErr (Str × Nat) :=
  match cfg.preprocessText with
  | none => .error .attributeError
  | some pp =>
    let s := pp s
    match cfg.pattern with
    | none => .ok (substituteIdsDict cfg.mappingEntries s)
    | some p =>
      if cfg.mappingIsFunction then .ok (subnFun p cfg.mappingFunc s)
      else .ok (substituteIdsPattern p cfg.mappingEntries s)

/-- Embedding of Anonymize.substituteDates (anonymouus.py lines 731-734):
reading self.date_replacer raises AttributeError when the attribute was
never assigned; otherwise the replacer is applied. -/
def substituteDatesPy (cfg : AnonConfig) (s : Str) : Except PyErr Str :=
  match cfg.dateReplacer with
  | none => .error .attributeError
  | some dr => .ok (dr s)

/-- Embedding of Anonymize.substituteString (anonymouus.py lines 316-325):
the empty string short-circuits; otherwise substituteIds runs first and
substituteDates runs on its result. -/
def substituteStringPy (cfg : AnonConfig) (s : Str) : Except PyErr Str :=
  if s = [] then .ok []
  else
    match substituteIdsPy cfg s with
    | .error e => .error e
    | .ok (s1, _) => substituteDatesPy cfg s1

/-- One row of the in-memory translation table of DynamicSubstitution:
a dict with the keys original and pseudonym. -/
structure MemRecord where
  original : Str
  pseudonym : Str
deriving DecidableEq

/-- The mutable state of a DynamicSubstitution instance. -/
structure DynState where
  memory : List MemRecord
  duplicatePseudonyms : Nat
deriving DecidableEq

inductive DynErr
  | doubleEntry
deriving DecidableEq

/-- The while True loop of DynamicSubstitution.subtitute
(dynamic_substitution.py lines 98-112). The generator is an oracle indexed
by its invocation count, so that an effectful generator such as uuid4 is
representable; a deterministic user function is a constant oracle. The
remaining argument counts the iterations the loop counter still allows
before reaching 5: the loop enters with loop_counter zero, so remaining
starts at 4, and when it runs out the colliding pseudonym is accepted and
the flag reporting a duplicate acceptance is true. -/
def genLoop (gen : Nat → Str) (memory : List MemRecord) :
    Nat → Nat → Str × Bool
  | callIdx, remaining =>
    let pseudonym := gen callIdx
    if (memory.filter (fun x => x.pseudonym == pseudonym)).length = 0 then
      (pseudonym, false)
    else
      match remaining with
      | 0 => (pseudonym, true)
      | r + 1 => genLoop gen memory (callIdx + 1) r

/-- Embedding of DynamicSubstitution.subtitute (dynamic_substitution.py
lines 91-120): look the original up in memory; exactly one record is a pure
lookup, several records raise ValueError, none runs the bounded
generate-and-check loop, appends the accepted pair, and increments the
duplicate counter when the collision bound was hit, resetting it past the
warning threshold of 10. -/
def subtitute (gen : Nat → Str) (st : DynState) (string : Str) :
    Except DynErr (Str × DynState) :=
  match st.memory.filter (fun x => x.original == string) with
  | [r] => .ok (r.pseudonym, st)
  | _ :: _ :: _ => .error .doubleEntry
  | [] =>
    let res := genLoop gen st.memory 0 4
    let dups := st.duplicatePseudonyms + (if res.2 then 1 else 0)
    let memory := st.memory ++ [⟨string, res.1⟩]
    let dups := if dups > 10 then 0 else dups
    .ok (res.1, ⟨memory, dups⟩)

/-- A flat filesystem: an association list from path to file content. -/
abbrev FS := List (Str × Str)

def fsLookup (fs : FS) (p : Str) : Option Str := lookupMap fs p

def fsIsFile (fs : FS) (p : Str) : Bool := (fsLookup fs p).isSome

def fsRemove (fs : FS) (p : Str) : FS :=
  fs.filter (fun e => decide (e.1 ≠ p))

/-- open(p, w) and writing content c: creates the file or truncates and
replaces its content. -/
def fsWrite (fs : FS) (p c : Str) : FS := fsRemove fs p ++ [(p, c)]

/-- os.rename: the content moves from src to dst. -/
def fsRename (fs : FS) (src dst : Str) : FS :=
  match fsLookup fs src with
  | some content => fsWrite (fsRemove fs src) dst content
  | none => fs

/-- os.path.splitext for a name with its extension after the final dot;
names without a dot have an empty extension. -/
def splitExt (p : Str) : Str × Str :=
  match p.reverse.findIdx? (fun c => c == '.') with
  | none => (p, [])
  | some i => (p.take (p.length - 1 - i), p.drop (p.length - 1 - i))

/-- The backup name built from a timestamp stamp: filename--stamp followed
by the extension. -/
def backupName (f stamp : Str) : Str :=
  (splitExt f).1 ++ ('-' :: '-' :: stamp) ++ (splitExt f).2

/-- The while loop of backupExistingResultFile: generate stamped candidate
names until one names no existing file. The stamps oracle gives the
timestamp read at each attempt; the fuel bounds the search, and none is
returned only when it runs out. -/
def freshBackupName (stamps : Nat → Str) (fs : FS) (f : Str) :
    Nat → Nat → Option Str
  | _, 0 => none
  | attempt, fuel + 1 =>
    let cand := backupName f (stamps attempt)
    if fsIsFile fs cand then freshBackupName stamps fs f (attempt + 1) fuel
    else some cand

/-- Embedding of DynamicSubstitution.backupExistingResultFile
(dynamic_substitution.py lines 48-61): nothing happens when the destination
is not a file; otherwise the file is renamed to the first stamped candidate
name that is not already a file. -/
def backupExisting (stamps : Nat → Str) (fs : FS) (f : Str) : FS :=
  if fsIsFile fs f then
    match freshBackupName stamps fs f 0 (fs.length + 1) with
    | some b => fsRename fs f b
    | none => fs
  else fs

/-- The text csv.DictWriter produces for the memory table: a header row with
the keys of the records and one row per record, rows ending in CRLF. -/
def renderTable (memory : List MemRecord) : Str :=
  ("original,pseudonym\r\n".data) ++
    memory.foldr (fun r acc => r.original ++ (',' :: r.pseudonym) ++ ('\r' :: '\n' :: acc)) []

/-- Embedding of DynamicSubstitution.writeTranslationTable
(dynamic_substitution.py lines 63-83): an empty memory is a logged no-op;
otherwise the code first executes open(mapping_result_file, w), which
creates or truncates the destination, then renames the destination to a
stamped backup name, then writes the table to the destination. -/
def writeTranslationTable (stamps : Nat → Str) (st : DynState) (fs : FS) (f : Str) : FS :=
  if st.memory = [] then fs
  else
    let fs1 := fsWrite fs f []
    let fs2 := backupExisting stamps fs1 f
    fsWrite fs2 f (renderTable st.memory)

/-- A sequential regex element: applied to the input, it returns the
remainders after every way of matching a prefix, in the backtracking
preference order of the regex engine (greedy alternatives first). -/
abbrev SeqMatcher := Str → List Str

/-- Consume exactly n characters of the class. -/
def consume (cls : Char → Bool) : Nat → Str → Option Str
  | 0, s => some s
  | _ + 1, [] => none
  | n + 1, c :: rest => if cls c then consume cls n rest else none

/-- A counted repetition of a character class: between lo and hi characters,
longest alternative first (greedy). -/
def repItem (cls : Char → Bool) (lo hi : Nat) : SeqMatcher := fun s =>
  (List.range (hi + 1 - lo)).filterMap (fun i => consume cls (hi - i) s)

/-- A sequence of elements: backtracking depth-first product of the
alternative lists. -/
def seqM : List SeqMatcher → SeqMatcher
  | [], s => [s]
  | m :: ms, s => (m s).flatMap (seqM ms)

/-- An optional group, greedy: with the group first, then without. -/
def optItem (m : SeqMatcher) : SeqMatcher := fun s => m s ++ [s]

/-- The length of the preferred full match of a sequence at the head of the
input, if any: the backtracking engine commits to the first alternative. -/
def matchLenAt (m : SeqMatcher) (s : Str) : Option Nat :=
  match m s with
  | [] => none
  | r :: _ => some (s.length - r.length)

def toMatcher (m : SeqMatcher) : Matcher := fun _ s => matchLenAt m s

def isDigitChar (c : Char) : Bool := c.isDigit

def charIn (cs : List Char) : Char → Bool := fun c => cs.contains c

/-- The python regex whitespace class (ASCII fragment). -/
def spaceClass : Char → Bool := charIn [' ', '\t', '\n', '\r', '\x0b', '\x0c']

/-- d n consumes exactly n digits. -/
def d (n : Nat) : SeqMatcher := repItem isDigitChar n n

def one (cls : Char → Bool) : SeqMatcher := repItem cls 1 1

/-- The six default date patterns of DateReplacer (date_replacer.py lines
6-16), each as the matching semantics of the compiled regex. -/
def datePat1 : SeqMatcher :=
  seqM [d 4, one (charIn ['-', '/']), d 2, one (charIn ['-', '/']), d 2,
        one (fun c => c = 'T' || spaceClass c), d 2, one (charIn [':']), d 2,
        one (charIn [':']), d 2, optItem (seqM [one (charIn ['.']), d 3])]

def datePat2 : SeqMatcher :=
  seqM [d 4, one (charIn ['-', '/']), d 2, one (charIn ['-', '/']), d 2]

def datePat3 : SeqMatcher :=
  seqM [repItem isDigitChar 1 2, one (charIn ['-', '/', '\\']),
        repItem isDigitChar 1 2, one (charIn ['-', '/', '\\']), d 4]

def datePat4 : SeqMatcher :=
  seqM [d 8, optItem (one (charIn ['_'])), d 4]

def datePat5 : SeqMatcher :=
  seqM [d 8, one (charIn ['T']), d 6]

def datePat6 : SeqMatcher :=
  seqM [d 2, one (charIn ['.']), d 2, one (charIn ['.']), d 4, one spaceClass,
        d 2, one (charIn [':']), d 2, one (charIn [':']), d 2]

/-- A replacement of DateReplacer: a literal string or a function of the
matched text. -/
inductive Repl
  | lit (t : Str)
  | fn (f : Str → Str)

def applyRepl : Repl → Str → Str
  | .lit t, _ => t
  | .fn f, m => f m

/-- re.finditer, as the list of the spans of the non-overlapping matches,
scanning left to right. The fuel drives the structural recursion and is
instantiated above the input length. -/
def finditerSpansF (p : Matcher) : Nat → Option Char → Nat → Str → List (Nat × Nat)
  | 0, _, _, _ => []
  | fuel + 1, prev, pos, s =>
    match s with
    | [] => []
    | c :: rest =>
      match p prev (c :: rest) with
      | some (n+1) =>
        (pos, pos + (n+1)) :: finditerSpansF p fuel (((c :: rest).take (n+1)).getLast?)
          (pos + (n+1)) (rest.drop n)
      | _ => finditerSpansF p fuel (some c) (pos + 1) rest

def finditerSpans (p : Matcher) (s : Str) : List (Nat × Nat) :=
  finditerSpansF p (s.length + 1) none 0 s

/-- new_string sliced between the span bounds: new_string from lo to hi. -/
def sliceOf (s : Str) (lo hi : Nat) : Str := (s.drop lo).take (hi - lo)

/-- new_string with the span replaced: the text before lo, the replacement,
the text from hi. -/
def sliceReplace (s : Str) (lo hi : Nat) (r : Str) : Str :=
  s.take lo ++ r ++ s.drop hi

/-- datestr.replace of underscore by space, applied before parsing. -/
def underscoreToSpace (s : Str) : Str :=
  s.map (fun c => if c = '_' then ' ' else c)

/-- The inner loop of DateReplacer.replace for one pattern (date_replacer.py
lines 44-55): the matches are those of the string as it stood when finditer
was called, and their spans are then used to slice the progressively
rewritten string. The parseable oracle embeds the external
dateutil.parser.parse call: it holds of exactly the strings that parser
accepts. Replacement happens when replace_invalid_dates is set or the
underscore-normalised slice parses; otherwise the match is skipped. -/
def dateReplaceOnePattern (parseable : Str → Bool) (invalidOk : Bool)
    (pm : Matcher) (repl : Repl) (s0 : Str) : Str :=
  (finditerSpans pm s0).foldl (fun ns span =>
    let datestr := sliceOf ns span.1 span.2
    if invalidOk || parseable (underscoreToSpace datestr) then
      sliceReplace ns span.1 span.2 (applyRepl repl datestr)
    else ns) s0

/-- Embedding of DateReplacer.replace (date_replacer.py lines 41-57): the
patterns run in order, each over the string left by the previous ones. -/
def dateReplace (parseable : Str → Bool) (invalidOk : Bool)
    (patterns : List (Matcher × Repl)) (s : Str) : Str :=
  patterns.foldl (fun ns pr => dateReplaceOnePattern parseable invalidOk pr.1 pr.2 ns) s

/-- The default pattern table of DateReplacer with its replacement
templates. -/
def defaultDatePatterns : List (Matcher × Repl) :=
  [(toMatcher datePat1, .lit ("1970-01-01T00:00:00".data)),
   (toMatcher datePat2, .lit ("1970-01-01".data)),
   (toMatcher datePat3, .lit ("01-01-1970".data)),
   (toMatcher datePat4, .lit ("19700101_0000".data)),
   (toMatcher datePat5, .lit ("19700101T000000".data)),
   (toMatcher datePat6, .lit ("01.01.1970 00:00:00".data))]

/-- DateReplacer.replace with the default patterns, as a function of the
replace_invalid_dates flag and the parser oracle. -/
def dateReplacerReplace (parseable : Str → Bool) (invalidOk : Bool) (s : Str) : Str :=
  dateReplace parseable invalidOk defaultDatePatterns s

/-- When the replacement function fixes every matched text, the rewritten
string is the input. -/
theorem subnCoreF_fst_id (p : Matcher) (f : Str → Str) :
    ∀ (fuel : Nat) (prev : Option Char) (s : Str),
      (∀ m ∈ (subnCoreF p f fuel prev s).2, f m = m) →
      (subnCoreF p f fuel prev s).1 = s := by
  intro fuel
  induction fuel with
  | zero => intro prev s _; rfl
  | succ fuel ih =>
    intro prev s h
    cases s with
    | nil => rfl
    | cons c rest =>
      cases hp : p prev (c :: rest) with
      | none =>
        simp only [subnCoreF, hp] at h ⊢
        rw [ih (some c) rest h]
      | some n =>
        cases n with
        | zero =>
          simp only [subnCoreF, hp] at h ⊢
          rw [ih (some c) rest h]
        | succ k =>
          simp only [subnCoreF, hp, List.mem_cons] at h ⊢
          have hfix : f ((c :: rest).take (k + 1)) = (c :: rest).take (k + 1) :=
            h _ (Or.inl rfl)
          have hins : (subnCoreF p f fuel (((c :: rest).take (k + 1)).getLast?)
              (rest.drop k)).1 = rest.drop k :=
            ih _ _ (fun m hm => h m (Or.inr hm))
          rw [hfix, hins]
          exact List.take_append_drop (k + 1) (c :: rest)

/-- The list of matched texts does not depend on the replacement
function. -/
theorem subnCoreF_snd_congr (p : Matcher) (f g : Str → Str) :
    ∀ (fuel : Nat) (prev : Option Char) (s : Str),
      (subnCoreF p f fuel prev s).2 = (subnCoreF p g fuel prev s).2 := by
  intro fuel
  induction fuel with
  | zero => intro prev s; rfl
  | succ fuel ih =>
    intro prev s
    cases s with
    | nil => rfl
    | cons c rest =>
      cases hp : p prev (c :: rest) with
      | none => simp only [subnCoreF, hp]; exact ih _ _
      | some n =>
        cases n with
        | zero => simp only [subnCoreF, hp]; exact ih _ _
        | succ k => simp only [subnCoreF, hp, List.cons.injEq, true_and]; exact ih _ _

theorem isPrefixOf_self (k : Str) : k.isPrefixOf k = true := by
  induction k with
  | nil => rfl
  | cons c t ih => simp [List.isPrefixOf, ih]

theorem isPrefixOf_append (k : Str) :
    ∀ t : Str, k.isPrefixOf (k ++ t) = true := by
  induction k with
  | nil => intro t; simp [List.isPrefixOf]
  | cons c rest ih => intro t; simp [List.isPrefixOf, ih]

/-- A successful isPrefixOf test exhibits the remainder of the string. -/
theorem exists_of_isPrefixOf {k s : Str} (h : k.isPrefixOf s = true) :
    ∃ t, k ++ t = s := by
  induction k generalizing s with
  | nil => exact ⟨s, rfl⟩
  | cons c rest ih =>
    cases s with
    | nil => simp [List.isPrefixOf] at h
    | cons c2 s2 =>
      simp only [List.isPrefixOf, Bool.and_eq_true, beq_iff_eq] at h
      obtain ⟨t, ht⟩ := ih h.2
      exact ⟨t, by rw [← h.1, List.cons_append, ht]⟩

theorem infix_of_isPrefixOf {k s : Str} (h : k.isPrefixOf s = true) :
    k <:+: s := by
  obtain ⟨t, ht⟩ := exists_of_isPrefixOf h
  exact ⟨[], t, by simpa using ht⟩

theorem infix_extend_cons {k s : Str} {c : Char} (h : k <:+: s) :
    k <:+: c :: s := by
  obtain ⟨u, t, ht⟩ := h
  exact ⟨c :: u, t, by rw [← ht]; rfl⟩

/-- A literal key that occurs nowhere in the string is not substituted:
the text and the match list are untouched, whatever the fuel. -/
theorem subnCoreF_lit_no_occurrence (k : Str) (f : Str → Str) :
    ∀ (fuel : Nat) (prev : Option Char) (s : Str), ¬ (k <:+: s) →
      subnCoreF (litMatcher k) f fuel prev s = (s, []) := by
  intro fuel
  induction fuel with
  | zero => intro prev s _; rfl
  | succ fuel ih =>
    intro prev s h
    cases s with
    | nil => rfl
    | cons c rest =>
      have hm : litMatcher k prev (c :: rest) = none := by
        simp only [litMatcher, ite_eq_right_iff, Bool.and_eq_true,
          Bool.not_eq_eq_eq_not, Bool.not_true, reduceCtorEq]
        intro hcond
        exact absurd (infix_of_isPrefixOf hcond.2) h
      simp only [subnCoreF, hm]
      rw [ih (some c) rest (fun hinf => h (infix_extend_cons hinf))]

/-- re.subn leaves a string without an occurrence of the literal key
unchanged and reports zero substitutions. -/
theorem subnLit_no_occurrence {k s : Str} (v : Str) (h : ¬ (k <:+: s)) :
    subnLit k v s = (s, 0) := by
  unfold subnLit subnFun subnCore
  rw [subnCoreF_lit_no_occurrence k _ _ none s h]
  rfl

/-- re.subn of a nonempty literal key on the key itself replaces the whole
string in a single substitution. -/
theorem subnLit_self {k : Str} (v : Str) (h : k ≠ []) : subnLit k v k = (v, 1) := by
  cases k with
  | nil => exact absurd rfl h
  | cons c rest =>
    unfold subnLit subnFun subnCore
    have hm : litMatcher (c :: rest) none (c :: rest) = some (rest.length + 1) := by
      simp [litMatcher, isPrefixOf_self]
    simp only [List.length_cons, subnCoreF, hm]
    have htake : (c :: rest).take (rest.length + 1) = c :: rest := by
      simp
    simp [htake, List.drop_length, subnCoreF]

/-- With a constant generator whose value already collides, every iteration
of the generate-and-check loop fails, so the loop runs the counter out and
accepts the colliding value, flagging the duplicate. -/
theorem genLoop_const_collide (v : Str) (mem : List MemRecord)
    (h : (mem.filter (fun x => x.pseudonym == v)).length ≠ 0) :
    ∀ (remaining callIdx : Nat),
      genLoop (fun _ => v) mem callIdx remaining = (v, true) := by
  intro remaining
  induction remaining with
  | zero => intro callIdx; simp [genLoop, h]
  | succ r ih => intro callIdx; simp only [genLoop, if_neg h]; exact ih _

/-- The generate-and-check loop interrogates the generator only at the
invocation indices the counter bound allows. -/
theorem genLoop_congr (mem : List MemRecord) :
    ∀ (remaining callIdx : Nat) (g1 g2 : Nat → Str),
      (∀ i, callIdx ≤ i → i ≤ callIdx + remaining → g1 i = g2 i) →
      genLoop g1 mem callIdx remaining = genLoop g2 mem callIdx remaining := by
  intro remaining
  induction remaining with
  | zero =>
    intro callIdx g1 g2 hg
    simp only [genLoop, hg callIdx (Nat.le_refl _) (Nat.le_refl _)]
  | succ r ih =>
    intro callIdx g1 g2 hg
    simp only [genLoop, hg callIdx (Nat.le_refl _) (Nat.le_add_right _ _)]
    split
    · rfl
    · exact ih (callIdx + 1) g1 g2 (fun i h1 h2 => hg i (by omega) (by omega))

/-- A fold whose step fixes every accumulator returns its start value. -/
theorem foldl_fixed {α β : Type} (g : α → β → α) (hg : ∀ a b, g a b = a) :
    ∀ (l : List β) (a : α), l.foldl g a = a := by
  intro l
  induction l with
  | nil => intro a; rfl
  | cons b bs ih => intro a; rw [List.foldl_cons, hg a b]; exact ih a

/-- With replace_invalid_dates unset and a parser that rejects everything,
one pattern pass of DateReplacer.replace changes nothing: every match is
skipped by the validity gate. -/
theorem dateReplaceOnePattern_noop (parseable : Str → Bool)
    (h : ∀ t, parseable t = false) (pm : Matcher) (repl : Repl) (s : Str) :
    dateReplaceOnePattern parseable false pm repl s = s := by
  unfold dateReplaceOnePattern
  exact foldl_fixed _ (fun ns span => by simp [h]) _ _

/-- With replace_invalid_dates unset and a parser that rejects everything,
DateReplacer.replace is the identity for any pattern table. -/
theorem dateReplace_noop (parseable : Str → Bool)
    (h : ∀ t, parseable t = false) (patterns : List (Matcher × Repl)) (s : Str) :
    dateReplace parseable false patterns s = s := by
  unfold dateReplace
  exact foldl_fixed _
    (fun ns (pr : Matcher × Repl) => dateReplaceOnePattern_noop parseable h pr.1 pr.2 ns) _ _

/-- Claim C1: the claim states that constructing Anonymize with a dict or a
path mapping source succeeds and never raises TypeError. The code does the
opposite: because the constructor inspects the type of self.mapping, which
it has just set to None, instead of the mapping parameter, every dict and
every path argument falls through to the final branch and raises TypeError,
with or without a pattern. -/
theorem c1_dict_and_path_raise_typeerror (pairs : List (Str × Str)) (p : Str) :
    initMappingDispatch (.dict pairs) false = .error .typeError ∧
    initMappingDispatch (.str p) false = .error .typeError ∧
    initMappingDispatch (.dict pairs) true = .error .typeError ∧
    initMappingDispatch (.str p) true = .error .typeError :=
  ⟨rfl, rfl, rfl, rfl⟩

/-- Claim C2: the claim states that writeTranslationTable preserves the
byte content of a pre-existing destination file under the backup name. The
code first opens the destination for writing, truncating it, and only then
renames it: with one recorded pair and a destination out.csv holding OLD,
the backup file holds the empty content, not OLD. -/
theorem c2_backup_truncated :
    writeTranslationTable (fun _ => "S".data) ⟨[⟨"a".data, "b".data⟩], 0⟩
        [("out.csv".data, "OLD".data)] ("out.csv".data) =
      [("out--S.csv".data, ([] : Str)),
       ("out.csv".data, "original,pseudonym\r\na,b\r\n".data)] ∧
    ([] : Str) ≠ "OLD".data := by
  exact ⟨rfl, by decide⟩

/-- Claim C3, counterexample: the keys cas and casper, with cas a proper
substring of casper, cas mapped to X and casper mapped to the pseudonym
cas. The input casper is first rewritten to cas by the longer key and then
rewritten again to X by the shorter key, in both the plain and the
word-boundary dictionary modes, so the result is not the pseudonym of the
longer key as the claim demands. -/
theorem c3_counterexample :
    substituteIdsDict (ruleList (reorderDict
        [⟨false, "cas".data, "X".data⟩, ⟨false, "casper".data, "cas".data⟩]))
      ("casper".data) = ("X".data, 2) ∧
    substituteIdsDictWB (ruleList (reorderDict
        [⟨false, "cas".data, "X".data⟩, ⟨false, "casper".data, "cas".data⟩]))
      ("casper".data) = ("X".data, 2) ∧
    "X".data ≠ "cas".data ∧ "cas".data <:+: "casper".data ∧
    "cas".data ≠ "casper".data := by
  refine ⟨by decide, by decide, by decide, ⟨[], "per".data, by decide⟩, by decide⟩

/-- Claim C3 (amended): for a literal-mode rule set of two keys in which
one key is a proper substring of the other, substituting the longer key
itself yields exactly its pseudonym in one substitution, provided the
shorter key does not occur in that pseudonym: the reorder step places the
longer key first, it consumes the whole input, and the later pass of the
shorter key then finds no occurrence. -/
theorem c3_longest_key_first (k1 k2 X Y : Str)
    (h1 : k1 <:+: k2) (h2 : k1 ≠ k2)
    (h4 : ¬ (k1 <:+: Y)) :
    substituteIdsDict (ruleList (reorderDict
      [⟨false, k1, X⟩, ⟨false, k2, Y⟩])) k2 = (Y, 1) := by
  have hlt : k1.length < k2.length := by
    obtain ⟨u, t, e⟩ := h1
    have he := congrArg List.length e
    simp only [List.length_append] at he
    rcases Nat.lt_or_ge k1.length k2.length with hc | hc
    · exact hc
    · exfalso
      have hu : u = [] := List.length_eq_zero.mp (by omega)
      have ht : t = [] := List.length_eq_zero.mp (by omega)
      subst hu; subst ht
      simp only [List.nil_append, List.append_nil] at e
      exact h2 e
  have hk2 : k2 ≠ [] := by
    intro hnil
    rw [hnil] at hlt
    simp at hlt
  have hord : ¬ (sortKey ⟨false, k2, Y⟩ ≤ sortKey ⟨false, k1, X⟩) := by
    simp only [sortKey, Bool.false_eq_true, if_false]
    omega
  have hreorder : reorderDict [⟨false, k1, X⟩, ⟨false, k2, Y⟩] =
      [⟨false, k2, Y⟩, ⟨false, k1, X⟩] := by
    simp [reorderDict, insertDesc, if_neg hord]
  rw [hreorder]
  simp [substituteIdsDict, ruleList, subnLit_self Y hk2, subnLit_no_occurrence X h4]

/-- Witness for c3_longest_key_first at the keys case and casper with
pseudonyms X and Q. -/
theorem c3_longest_key_first_witness :
    ("cas".data <:+: "casper".data) ∧ "cas".data ≠ "casper".data ∧
    ¬ ("cas".data <:+: "Q".data) ∧
    substituteIdsDict (ruleList (reorderDict
      [⟨false, "cas".data, "X".data⟩, ⟨false, "casper".data, "Q".data⟩]))
      ("casper".data) = ("Q".data, 1) := by
  have hinf : "cas".data <:+: "casper".data := ⟨[], "per".data, by decide⟩
  have hninf : ¬ ("cas".data <:+: "Q".data) := by
    intro hin
    obtain ⟨u, t, e⟩ := hin
    have hl := congrArg List.length e
    simp [List.length_append] at hl
    omega
  exact ⟨hinf, by decide, hninf,
    c3_longest_key_first _ _ _ _ hinf (by decide) hninf⟩

/-- Claim C4, counterexample: in pattern mode with a static mapping, a
match absent from the mapping is passed through unchanged, but the reported
substitution count does increment for it: re.subn counts every match it
processes, so with an empty mapping and one match the count is 1, not the 0
the claim demands. -/
theorem c4_counterexample :
    (substituteIdsPattern (litMatcher ("ab".data)) [] ("xaby".data)).1 = "xaby".data ∧
    (substituteIdsPattern (litMatcher ("ab".data)) [] ("xaby".data)).2 = 1 ∧
    (1 : Nat) ≠ 0 := by decide

/-- Claim C4 (amended): in pattern mode with a static mapping, when every
matched text is absent from the mapping the output string is the input
unchanged and no error occurs; the substitution count, however, increments
for every match of the pattern, pass-through matches included, so it equals
the total number of matches. -/
theorem c4_passthrough_count (p : Matcher) (mapping : List (Str × Str)) (s : Str)
    (h : ∀ m ∈ patternMatches p s, lookupMap mapping m = none) :
    (substituteIdsPattern p mapping s).1 = s ∧
    (substituteIdsPattern p mapping s).2 = (patternMatches p s).length := by
  constructor
  · unfold substituteIdsPattern subnFun subnCore
    apply subnCoreF_fst_id
    intro m hm
    rw [subnCoreF_snd_congr p _ id] at hm
    simp [h m hm]
  · unfold substituteIdsPattern subnFun subnCore patternMatches
    rw [subnCoreF_snd_congr p _ id]
    rfl

/-- Witness for c4_passthrough_count: the pattern for the literal ab, a
mapping holding only cd, and an input with one match. -/
theorem c4_passthrough_count_witness :
    (∀ m ∈ patternMatches (litMatcher ("ab".data)) ("xaby".data),
       lookupMap [("cd".data, "Z".data)] m = none) ∧
    (substituteIdsPattern (litMatcher ("ab".data)) [("cd".data, "Z".data)]
        ("xaby".data)).1 = "xaby".data ∧
    (substituteIdsPattern (litMatcher ("ab".data)) [("cd".data, "Z".data)]
        ("xaby".data)).2 =
      (patternMatches (litMatcher ("ab".data)) ("xaby".data)).length := by
  have h : ∀ m ∈ patternMatches (litMatcher ("ab".data)) ("xaby".data),
      lookupMap [("cd".data, "Z".data)] m = none := by decide
  exact ⟨h, (c4_passthrough_count _ _ _ h).1, (c4_passthrough_count _ _ _ h).2⟩

/-- Claim C5, counterexample: the claim states that a mapping function
supplied together with a pattern is signature-validated at construction, a
zero-parameter function being rejected. The constructor performs no such
validation: a zero-parameter function with a pattern is accepted, even
though checkCallable itself would reject that signature. -/
theorem c5_counterexample :
    initMappingDispatch (.func 0 []) true = .ok ⟨.func 0 [], true, .none⟩ ∧
    checkCallable ⟨0, []⟩ = .error .valueError :=
  ⟨rfl, rfl⟩

/-- Claim C5 (amended): a mapping function with a pattern is accepted at
construction whatever its signature, and construction raises ValueError
exactly when the function lacks an accompanying pattern; signature
validation exists only in checkCallable, which introspects the signature
without ever invoking the function and is applied to the preprocess and
date-replacer arguments, rejecting a parameterless callable and a callable
whose later parameters lack defaults. -/
theorem c5_mode_c_no_validation (n : Nat) (defs : List Bool) :
    initMappingDispatch (.func n defs) true = .ok ⟨.func n defs, true, .none⟩ ∧
    initMappingDispatch (.func n defs) false = .error .valueError ∧
    checkCallable ⟨0, []⟩ = .error .valueError ∧
    checkCallable ⟨2, [false]⟩ = .error .valueError ∧
    checkCallable ⟨2, [true]⟩ = .ok true :=
  ⟨rfl, rfl, rfl, rfl, rfl⟩

/-- Claim C6: from a registry state holding at most one record for an
original, two successive calls of subtitute on that original return the
same pseudonym, the second call is a pure lookup leaving the state
untouched, and the table then holds exactly one record for that
original. -/
theorem c6_registry_idempotent (gen : Nat → Str) (mem : List MemRecord)
    (dc : Nat) (s : Str)
    (h : (mem.filter (fun x => x.original == s)).length ≤ 1) :
    ∃ p st1, subtitute gen ⟨mem, dc⟩ s = .ok (p, st1) ∧
      subtitute gen st1 s = .ok (p, st1) ∧
      (st1.memory.filter (fun x => x.original == s)).length = 1 := by
  cases hf : mem.filter (fun x => x.original == s) with
  | nil =>
    have hfilter1 : ∀ p : Str,
        (mem ++ [MemRecord.mk s p]).filter (fun x => x.original == s) =
          [MemRecord.mk s p] := by
      intro p
      rw [List.filter_append, hf]
      simp
    refine ⟨(genLoop gen mem 0 4).1,
      ⟨mem ++ [MemRecord.mk s ((genLoop gen mem 0 4).1)],
       if dc + (if (genLoop gen mem 0 4).2 then 1 else 0) > 10 then 0
       else dc + (if (genLoop gen mem 0 4).2 then 1 else 0)⟩, ?_, ?_, ?_⟩
    · simp only [subtitute, hf]
    · simp only [subtitute, hfilter1]
    · simp [hfilter1]
  | cons r tail =>
    have htail : tail = [] := by
      rw [hf] at h
      simp only [List.length_cons] at h
      exact List.length_eq_zero.mp (by omega)
    subst htail
    refine ⟨r.pseudonym, ⟨mem, dc⟩, ?_, ?_, ?_⟩
    · simp only [subtitute, hf]
    · simp only [subtitute, hf]
    · simp only [hf, List.length_cons, List.length_nil]

/-- Witness for c6_registry_idempotent: the empty registry and the original
a, with a generator constantly producing p. -/
theorem c6_registry_idempotent_witness :
    (([] : List MemRecord).filter (fun x => x.original == "a".data)).length ≤ 1 ∧
    ∃ p st1, subtitute (fun _ => "p".data) ⟨[], 0⟩ ("a".data) = .ok (p, st1) ∧
      subtitute (fun _ => "p".data) st1 ("a".data) = .ok (p, st1) ∧
      (st1.memory.filter (fun x => x.original == "a".data)).length = 1 :=
  ⟨by decide, c6_registry_idempotent (fun _ => "p".data) [] 0 ("a".data) (by decide)⟩

/-- Claim C7: with a generator that always returns a value already recorded
for a different original, subtitute terminates: the bounded loop runs the
counter to 5, accepts the colliding pseudonym, records the pair and
increments the duplicate counter. Moreover the result of a call on an
unseen original depends only on the first five generator invocations, so
generation is retried at most that often. -/
theorem c7_collision_bound (mem : List MemRecord) (dc : Nat) (s v : Str)
    (h0 : mem.filter (fun x => x.original == s) = [])
    (h1 : (mem.filter (fun x => x.pseudonym == v)).length ≠ 0)
    (h2 : dc + 1 ≤ 10) :
    subtitute (fun _ => v) ⟨mem, dc⟩ s = .ok (v, ⟨mem ++ [⟨s, v⟩], dc + 1⟩) ∧
    (∀ g1 g2 : Nat → Str, (∀ i, i < 5 → g1 i = g2 i) →
      subtitute g1 ⟨mem, dc⟩ s = subtitute g2 ⟨mem, dc⟩ s) := by
  constructor
  · have hn : ¬ (dc + 1 > 10) := by omega
    simp only [subtitute, h0, genLoop_const_collide v mem h1 4 0, if_true, if_neg hn]
  · intro g1 g2 hg
    have hcongr := genLoop_congr mem 4 0 g1 g2 (fun i hi1 hi2 => hg i (by omega))
    simp only [subtitute, h0, hcongr]

/-- Witness for c7_collision_bound: a registry holding b with pseudonym v
and a generator constantly producing v for the unseen original a. -/
theorem c7_collision_bound_witness :
    ([⟨"b".data, "v".data⟩] : List MemRecord).filter
        (fun x => x.original == "a".data) = [] ∧
    (([⟨"b".data, "v".data⟩] : List MemRecord).filter
        (fun x => x.pseudonym == "v".data)).length ≠ 0 ∧
    (0 : Nat) + 1 ≤ 10 ∧
    subtitute (fun _ => "v".data) ⟨[⟨"b".data, "v".data⟩], 0⟩ ("a".data) =
      .ok ("v".data, ⟨[⟨"b".data, "v".data⟩, ⟨"a".data, "v".data⟩], 0 + 1⟩) :=
  ⟨by decide, by decide, by decide,
   (c7_collision_bound [⟨"b".data, "v".data⟩] 0 ("a".data) ("v".data)
     (by decide) (by decide) (by decide)).1⟩

set_option maxHeartbeats 2000000 in
/-- Claim C8: with replace_invalid_dates unset and a parser that accepts
nothing, the date replacer is the identity; with the flag set, the
date-shaped but unparseable string 99/99/9999 is replaced with the
replacement template of the pattern that matches it. -/
theorem c8_invalid_date_gate (parseable : Str → Bool) (s : Str)
    (h : ∀ t, parseable t = false) :
    dateReplacerReplace parseable false s = s ∧
    dateReplacerReplace parseable true ("99/99/9999".data) = "01-01-1970".data := by
  constructor
  · exact dateReplace_noop parseable h defaultDatePatterns s
  · rfl

/-- Witness for c8_invalid_date_gate: the parser oracle rejecting
everything, at the input 99/99/9999. -/
theorem c8_invalid_date_gate_witness :
    (∀ t : Str, (fun _ : Str => false) t = false) ∧
    dateReplacerReplace (fun _ => false) false ("99/99/9999".data) = "99/99/9999".data ∧
    dateReplacerReplace (fun _ => false) true ("99/99/9999".data) = "01-01-1970".data :=
  ⟨fun _ => rfl,
   (c8_invalid_date_gate (fun _ => false) ("99/99/9999".data) (fun _ => rfl)).1,
   (c8_invalid_date_gate (fun _ => false) ("99/99/9999".data) (fun _ => rfl)).2⟩

/-- Claim C9: in word-boundary dictionary mode with the key amsterdam, the
input amsterdamse is left untouched with zero substitutions, while the
exact input amsterdam is replaced by the pseudonym of the key, whatever
that pseudonym is. -/
theorem c9_word_boundaries (P : Str) :
    substituteIdsDictWB (ruleList (reorderDict [⟨false, "amsterdam".data, P⟩]))
      ("amsterdamse".data) = ("amsterdamse".data, 0) ∧
    substituteIdsDictWB (ruleList (reorderDict [⟨false, "amsterdam".data, P⟩]))
      ("amsterdam".data) = (P, 1) := by
  refine ⟨rfl, ?_⟩
  have h : substituteIdsDictWB (ruleList (reorderDict [⟨false, "amsterdam".data, P⟩]))
      ("amsterdam".data) = (P ++ [], 0 + 1) := rfl
  rw [h, List.append_nil]

/-- Claim C10: on an Anonymize instance built without preprocess_text,
every call of substituteIds raises AttributeError before any matching, and
so does substituteString on every nonempty string: the attribute is
assigned only when the argument is supplied but is read unconditionally. -/
theorem c10_preprocess_attribute_error (cfg : AnonConfig) (s : Str)
    (h : cfg.preprocessText = none) :
    substituteIdsPy cfg s = .error .attributeError ∧
    (s ≠ [] → substituteStringPy cfg s = .error .attributeError) := by
  have h1 : substituteIdsPy cfg s = .error .attributeError := by
    unfold substituteIdsPy
    rw [h]
  refine ⟨h1, fun hs => ?_⟩
  unfold substituteStringPy
  rw [if_neg hs, h1]

/-- Witness for c10_preprocess_attribute_error: a configuration without the
preprocess attribute and the input x. -/
theorem c10_preprocess_attribute_error_witness :
    (AnonConfig.mk none none none false [] id).preprocessText = none ∧
    substituteIdsPy (AnonConfig.mk none none none false [] id) ("x".data) =
      .error .attributeError ∧
    substituteStringPy (AnonConfig.mk none none none false [] id) ("x".data) =
      .error .attributeError := by
  have h := c10_preprocess_attribute_error (AnonConfig.mk none none none false [] id)
    ("x".data) rfl
  exact ⟨rfl, h.1, h.2 (by decide)⟩

end Anon


